import Mathlib

/-!
Verification of the deployment-manifest generator notebook
(`prefect_create_deployment.ipynb`) and the image-tracing notebook
(`potrace_imports.ipynb`).

Strings are modelled as lists of characters (`Str`); Python string
operations (`split`, `replace`, `endswith`, `lstrip`, `os.path.basename`)
are embedded as executable functions.  The filesystem seen by `os.walk`
is a finite directory tree; a run of the generator is the list of its
side effects (prints, `mkdir` calls, file writes), and the state of the
output directory is a map from path to contents obtained by applying
those effects in order.  POSIX path separators are assumed throughout,
matching the explicit `/` joins in the source.
-/

set_option linter.unusedVariables false
set_option maxRecDepth 8000

/-- Strings, modelled as lists of characters; `String.data` converts literals. -/
abbrev Str := List Char

/-- Python `s.split(sep)` for a one-character separator: the pieces of `s`
between occurrences of `sep` (always a nonempty list). -/
def pySplit (sep : Char) : Str → List Str
  | [] => [[]]
  | c :: rest =>
    if c = sep then [] :: pySplit sep rest
    else
      match pySplit sep rest with
      | [] => [[c]]
      | r :: rs => (c :: r) :: rs

/-- Worker for Python `s.replace(old, new)` with nonempty `old`: scan left to
right, replacing each non-overlapping occurrence of `old` by `new`.  The fuel
argument, initially the length of the string, only bounds the recursion depth
(each step consumes at least one character when `old` is nonempty). -/
def pyReplaceFuel (old new : Str) : Nat → Str → Str
  | _, [] => []
  | 0, s => s
  | fuel + 1, c :: rest =>
    if old.isPrefixOf (c :: rest) then new ++ pyReplaceFuel old new fuel (rest.drop (old.length - 1))
    else c :: pyReplaceFuel old new fuel rest

/-- Python `s.replace(old, new)`: every occurrence of `old` becomes `new`; for an
empty pattern Python inserts `new` before every character and once at the end. -/
def pyReplace (s old new : Str) : Str :=
  if old = [] then new ++ s.foldr (fun c acc => c :: (new ++ acc)) []
  else pyReplaceFuel old new s.length s

/-- Python `s.endswith(suffix)`. -/
def pyEndsWith (s suffix : Str) : Bool := suffix.isSuffixOf s

/-- Python `os.path.basename` with POSIX separators: everything after the last slash. -/
def pyBasename (s : Str) : Str := (s.reverse.takeWhile (fun c => c ≠ '/')).reverse

/-- Python `s.lstrip()`: drop leading whitespace. -/
def pyLstrip : Str → Str
  | [] => []
  | c :: rest => if c.isWhitespace then pyLstrip rest else c :: rest

/-- Whether `pat` occurs as a contiguous substring of `s` (always true for `pat = []`). -/
def occursIn (pat : Str) : Str → Bool
  | [] => pat.isPrefixOf []
  | c :: rest => pat.isPrefixOf (c :: rest) || occursIn pat rest

/-- A directory tree: a directory has a name, subdirectories, and plain files. -/
inductive FsTree where
  | dir (dname : Str) (subdirs : List FsTree) (files : List Str)

/-- The directory's own name. -/
def FsTree.name : FsTree → Str
  | .dir n _ _ => n

/-- The subdirectories of a directory. -/
def FsTree.subdirs : FsTree → List FsTree
  | .dir _ ds _ => ds

/-- The plain files of a directory. -/
def FsTree.files : FsTree → List Str
  | .dir _ _ fs => fs

/-- One `os.walk` triple: the directory's path, its subdirectories (carried with
their trees, standing for the name list `dirs`), and its file names. -/
structure WalkEntry where
  path : Str
  subdirs : List FsTree
  files : List Str

mutual
/-- `os.walk(path)` over a tree: top-down, parents before children, joining
paths with a slash. -/
def walk (path : Str) : FsTree → List WalkEntry
  | .dir _ subs fs => ⟨path, subs, fs⟩ :: walkList path subs

/-- Walk each subdirectory in order. -/
def walkList (path : Str) : List FsTree → List WalkEntry
  | [] => []
  | d :: ds => walk (path ++ ('/' :: d.name)) d ++ walkList path ds
end

/-- Python `os.listdir` on a directory: every entry name, subdirectories followed
by plain files (one fixed enumeration order). -/
def listdir (t : FsTree) : List Str := t.subdirs.map FsTree.name ++ t.files

/-- The module-level constants of the notebook: `prefect_version`, `src_root`,
`local_root`, and `output_folder`. -/
structure Config where
  prefectVersion : Str
  srcRoot : Str
  localRoot : Str
  outputFolder : Str

/-- Observable side effects of a run: `print` logging, `Path(...).mkdir(parents=True,
exist_ok=True)`, and writing a whole file (open mode "w"). -/
inductive Effect where
  | log (msg : Str)
  | mkdirP (path : Str)
  | write (path : Str) (contents : Str)
deriving DecidableEq

/-- The generated `prefect.yaml` body, line by line: a faithful transcription of the
triple-quoted f-string of `create_deployment_yaml` (it ends in a newline;
its `.lstrip()` is applied in `yamlBody`). -/
def yamlLines (cfg : Config) (projectName deploymentName entrypoint workerPool scheduleInterval scheduleTimezone scheduleActive : Str) : List Str :=
  [ ("# Welcome to your prefect.yaml file! You can use this file for storing and managing".data),
    ("# configuration for deploying your flows. We recommend committing this file to source".data),
    ("# control along with your flow code.".data),
    [],
    ("# Generic metadata about this project".data),
    ("name: ".data) ++ projectName,
    ("prefect-version: ".data) ++ cfg.prefectVersion,
    [],
    ("# build section allows you to manage and build docker images".data),
    ("build: null".data),
    [],
    ("# push section allows you to manage if and how this project is uploaded to remote locations".data),
    ("push: null".data),
    [],
    ("# pull section allows you to provide instructions for cloning this project in remote locations".data),
    ("pull:".data),
    ("- prefect.deployments.steps.set_working_directory:".data),
    ("    directory: ".data) ++ cfg.srcRoot,
    [],
    ("# the deployments section allows you to provide configuration for deploying flows".data),
    ("deployments:".data),
    ("- name: ".data) ++ deploymentName,
    ("  version: null".data),
    ("  tags: []".data),
    ("  concurrency_limit: null".data),
    ("  description: null".data),
    ("  entrypoint: ".data) ++ entrypoint,
    ("  parameters: \x7b \x7d".data),
    ("  work_pool:".data),
    ("    name: ".data) ++ workerPool,
    ("    work_queue_name: null".data),
    ("    job_variables: \x7b \x7d".data),
    ("enforce_parameter_schema: true".data),
    ("schedules:".data),
    ("- interval: ".data) ++ scheduleInterval,
    ("  anchor_date: \x272024-01-01T01:00:00+00:00\x27".data),
    ("  timezone: ".data) ++ scheduleTimezone,
    ("  active: ".data) ++ scheduleActive,
    ("  max_active_runs: null".data),
    ("  catchup: false".data) ]

/-- Join lines, each followed by a newline (the template ends in a newline). -/
def unlines (ls : List Str) : Str := ls.foldr (fun l acc => l ++ ('\n' :: acc)) []

/-- The full rendered configuration text: the f-string body with `.lstrip()` applied.
`schedule_interval` is a Python float that is only ever interpolated into the
template, so it is modelled by its decimal rendering (the loop passes 3600.0,
which renders as "3600.0"). -/
def yamlBody (cfg : Config) (projectName deploymentName entrypoint workerPool scheduleInterval scheduleTimezone scheduleActive : Str) : Str :=
  pyLstrip (unlines (yamlLines cfg projectName deploymentName entrypoint workerPool scheduleInterval scheduleTimezone scheduleActive))

/-- `create_deployment_yaml`: renders the template and produces the side effects of
`Path(output_folder).mkdir(parents=True, exist_ok=True)` followed by writing
`f"{output_folder}/{deployment_name}-deploy.yaml"`.  The `project_dir` parameter
is accepted and, as in the source, never used. -/
def createDeploymentYaml (cfg : Config)
    (projectName projectDir deploymentName entrypoint workerPool scheduleInterval scheduleTimezone scheduleActive : Str) : List Effect :=
  [ Effect.mkdirP cfg.outputFolder,
    Effect.write (cfg.outputFolder ++ ('/' :: deploymentName) ++ ("-deploy.yaml".data))
      (yamlBody cfg projectName deploymentName entrypoint workerPool scheduleInterval scheduleTimezone scheduleActive) ]

/-- The `project_dir` argument of the discovery loop:
`f"{root}/{d}".replace("\\", "/").replace(local_root, src_root)`. -/
def projectDirFor (cfg : Config) (rootPath dname : Str) : Str :=
  pyReplace (pyReplace (rootPath ++ ('/' :: dname)) ("\\".data) ("/".data)) cfg.localRoot cfg.srcRoot

/-- The `entrypoint` argument of the discovery loop:
`f"{root}/{d}/{deployment}.py:{deployment}".replace("\\", "/").replace(local_root, src_root)`. -/
def entryPointFor (cfg : Config) (rootPath dname deployment : Str) : Str :=
  pyReplace (pyReplace (rootPath ++ ('/' :: dname) ++ ('/' :: deployment) ++ (".py:".data) ++ deployment) ("\\".data) ("/".data)) cfg.localRoot cfg.srcRoot

/-- Processing of one `os.listdir` entry of a matched `src` directory: entries ending
in ".py" yield a `print` and a `create_deployment_yaml` call with the loop's
arguments, where `deployment = file.split(".")[0]`. -/
def processFile (cfg : Config) (rootPath dname file : Str) : List Effect :=
  if pyEndsWith file (".py".data) then
    let deployment := (pySplit '.' file).headD []
    Effect.log (("Creating deployment for ".data) ++ deployment) ::
      createDeploymentYaml cfg (pyBasename rootPath) (projectDirFor cfg rootPath dname)
        deployment (entryPointFor cfg rootPath dname deployment)
        ("default-worker-pool".data) ("3600.0".data) ("UTC".data) ("true".data)
  else []

/-- The discovery-loop body for one walk triple: every subdirectory named exactly
"src" has its listing scanned. -/
def processEntry (cfg : Config) (e : WalkEntry) : List Effect :=
  e.subdirs.flatMap fun s =>
    if s.name = ("src".data) then (listdir s).flatMap (processFile cfg e.path s.name)
    else []

/-- One full run of the generator: `for root, dirs, files in os.walk(local_root): ...`. -/
def runGenerator (cfg : Config) (tree : FsTree) : List Effect :=
  (walk cfg.localRoot tree).flatMap (processEntry cfg)

/-- Apply one effect to the state of the output filesystem (a map from file path to
contents); `open(..., "w")` overwrites unconditionally and never fails, other
effects leave files unchanged. -/
def applyEffect (σ : Str → Option Str) : Effect → (Str → Option Str)
  | .write p c => fun n => if p = n then some c else σ n
  | _ => σ

/-- Apply a list of effects in order. -/
def applyEffects (σ : Str → Option Str) (es : List Effect) : Str → Option Str :=
  es.foldl applyEffect σ

/-- The contribution of a single effect to path `n`: the contents if the effect
writes `n`, nothing otherwise. -/
def writeUpdate (e : Effect) (n : Str) : Option Str :=
  match e with
  | .write p c => if p = n then some c else none
  | _ => none

/-- The contents of the chronologically last write to path `n`, if any. -/
def lastWrite (n : Str) : List Effect → Option Str
  | [] => none
  | e :: es => (lastWrite n es).or (writeUpdate e n)

/-- The paths of all files written, in order. -/
def writeNames (es : List Effect) : List Str :=
  es.filterMap fun e => match e with | .write p _ => some p | _ => none

/-- The directories created, in order. -/
def dirsMade (es : List Effect) : List Str :=
  es.filterMap fun e => match e with | .mkdirP p => some p | _ => none

/-- Observer reading a field back out of rendered text: the remainder of the first
line that starts with `key`. -/
def findKey (key : Str) : List Str → Option Str
  | [] => none
  | l :: ls => if key.isPrefixOf l then some (l.drop key.length) else findKey key ls

/-- Extract a field from a rendered body: split into lines, then look for `key`. -/
def extractField (key body : Str) : Option Str :=
  findKey key (pySplit '\n' body)

/-- A traced point, carrying the decimal renderings of its coordinates (the tracing
script only ever interpolates them into the SVG text). -/
structure TracePoint where
  x : Str
  y : Str

/-- A segment of a traced curve as exposed by the potrace library: a corner
(`segment.c`, `segment.end_point`) or a bezier (`segment.c1`, `segment.c2`,
`segment.end_point`). -/
inductive TraceSegment where
  | corner (c endPoint : TracePoint)
  | bezier (c1 c2 endPoint : TracePoint)

/-- A traced curve: `curve.start_point` and `curve.segments`. -/
structure TraceCurve where
  startPoint : TracePoint
  segments : List TraceSegment

/-- The equalized image as used by the script: only its rendered width and height
appear in the output. -/
structure TracedImage where
  width : Str
  height : Str

/-- The path fragment appended for one segment in the script's loop. -/
def segmentPart : TraceSegment → Str
  | .corner a b =>
      ("L".data) ++ a.x ++ (",".data) ++ a.y ++ ("L".data) ++ b.x ++ (",".data) ++ b.y
  | .bezier a b c =>
      ("C".data) ++ a.x ++ (",".data) ++ a.y ++ (" ".data) ++ b.x ++ (",".data) ++ b.y
        ++ (" ".data) ++ c.x ++ (",".data) ++ c.y

/-- The parts contributed by one curve: an "M..." start, one part per segment, "z". -/
def curveParts (cv : TraceCurve) : List Str :=
  (("M".data) ++ cv.startPoint.x ++ (",".data) ++ cv.startPoint.y)
    :: (cv.segments.map segmentPart ++ [("z".data)])

/-- The `<svg ...>` opening tag with the image's rendered dimensions. -/
def svgHeader (image : TracedImage) : Str :=
  ("<svg version=\"1.1\" xmlns=\"http://www.w3.org/2000/svg\" xmlns:xlink=\"http://www.w3.org/1999/xlink\" width=\"".data)
    ++ image.width ++ ("\" height=\"".data) ++ image.height ++ ("\" viewBox=\"0 0 ".data)
    ++ image.width ++ (" ".data) ++ image.height ++ ("\">".data)

/-- The `<path .../>` element with the joined parts (`"".join(parts)`). -/
def svgPathElement (parts : List Str) : Str :=
  ("<path stroke=\"none\" fill=\"black\" fill-rule=\"evenodd\" d=\"".data)
    ++ parts.foldr (fun p acc => p ++ acc) [] ++ ("\"/>".data)

/-- Python `os.path.splitext(s)[0]` with POSIX separators: strip the extension
beginning at the last dot of the final path component, unless that component has
no dot there or only leading dots before it. -/
def pySplitextBase (s : Str) : Str :=
  let revBase := s.reverse.takeWhile (fun c => c ≠ '/')
  let revExt := revBase.takeWhile (fun c => c ≠ '.')
  if revExt.length < revBase.length ∧
      (revBase.drop (revExt.length + 1)).any (fun c => !(c == '.')) = true then
    s.take (s.length - (revExt.length + 1))
  else s

/-- `file_to_svg` of the tracing notebook.  The image load (`Image.open` plus
`ImageOps.equalize`) is modelled by its outcome `loadResult`; the external potrace
call `Bitmap(image, blacklevel=.250).trace(...)` is the function `traceFn`.  A load
failure is caught by the `except` branch: it is logged and the function returns
normally, writing nothing.  On success the traced curves are reassembled into one
SVG file next to the input. -/
def file_to_svg (loadResult : Except Str TracedImage)
    (traceFn : TracedImage → List TraceCurve) (filename : Str) : List Effect :=
  Effect.log (("Loading image ".data) ++ filename ++ ("...".data)) ::
    (match loadResult with
     | .error e => [Effect.log (("Failed to load image ".data) ++ filename ++ (": ".data) ++ e)]
     | .ok image =>
        [Effect.write (pySplitextBase filename ++ (".svg".data))
          (svgHeader image ++ svgPathElement ((traceFn image).flatMap curveParts) ++ ("</svg>".data))])

/-- Example configuration for concrete runs: version "3.0.1", remote root "P",
local root "R", output folder "out". -/
def exCfg : Config := ⟨("3.0.1".data), ("P".data), ("R".data), ("out".data)⟩

/-- Example tree `R/a/src/b.py`. -/
def exTreeSimple : FsTree :=
  .dir ("R".data) [.dir ("a".data) [.dir ("src".data) [] [("b.py".data)]] []] []

/-- Example tree `R/x/src/a.b.py` (a file name with two dots). -/
def exTreeDots : FsTree :=
  .dir ("R".data) [.dir ("x".data) [.dir ("src".data) [] [("a.b.py".data)]] []] []

/-- Example tree `R/projA/projB/src/flow.py` (the parent of `src` is `projB`, the
grandparent `projA`). -/
def exTreeDeep : FsTree :=
  .dir ("R".data)
    [.dir ("projA".data) [.dir ("projB".data) [.dir ("src".data) [] [("flow.py".data)]] []] []] []

/-- Example tree with no directory named `src`: `R/a/source/b.py`. -/
def exTreeNoSrc : FsTree :=
  .dir ("R".data) [.dir ("a".data) [.dir ("source".data) [] [("b.py".data)]] []] []

/-- Example tree with a `src` nested inside another `src`: `R/src/outer.py` and
`R/src/src/inner.py`. -/
def exTreeNested : FsTree :=
  .dir ("R".data)
    [.dir ("src".data) [.dir ("src".data) [] [("inner.py".data)]] [("outer.py".data)]] []

/-- Example tree with two units colliding on the deployment name `flow`:
`R/projA/src/flow.py` and `R/projB/src/flow.py`. -/
def exTreeCollide : FsTree :=
  .dir ("R".data)
    [.dir ("projA".data) [.dir ("src".data) [] [("flow.py".data)]] [],
     .dir ("projB".data) [.dir ("src".data) [] [("flow.py".data)]] []] []

/-- A list starts with itself. -/
lemma isPrefixOf_append_self (l s : Str) : l.isPrefixOf (l ++ s) = true := by
  simp [List.isPrefixOf_iff_prefix]

/-- If `key` begins `pre ++ s` then `key` and `pre` are comparable. -/
lemma prefix_append_cases (key pre s : Str) (h : key <+: pre ++ s) :
    key <+: pre ∨ pre <+: key := by
  obtain ⟨t, ht⟩ := h
  rcases List.append_eq_append_iff.mp ht with ⟨a, ha, _⟩ | ⟨c, hc, _⟩
  · exact Or.inl ⟨a, ha.symm⟩
  · exact Or.inr ⟨c, hc.symm⟩

/-- Mismatch rule for line scanning: if neither of `key`, `pre` begins the other,
then a line `pre ++ s` does not start with `key`. -/
lemma isPrefixOf_append_false (key pre s : Str) (h1 : ¬ key <+: pre) (h2 : ¬ pre <+: key) :
    key.isPrefixOf (pre ++ s) = false := by
  cases hb : key.isPrefixOf (pre ++ s) with
  | false => rfl
  | true =>
      rcases prefix_append_cases key pre s (List.isPrefixOf_iff_prefix.mp hb) with h | h
      · exact absurd h h1
      · exact absurd h h2

/-- `findKey` skips a line not starting with the key. -/
lemma findKey_skip (key l : Str) (ls : List Str) (h : key.isPrefixOf l = false) :
    findKey key (l :: ls) = findKey key ls := by
  simp [findKey, h]

/-- `findKey` skips a line whose concrete head mismatches the key. -/
lemma findKey_skip_app (key pre s : Str) (ls : List Str)
    (h1 : ¬ key <+: pre) (h2 : ¬ pre <+: key) :
    findKey key ((pre ++ s) :: ls) = findKey key ls :=
  findKey_skip _ _ _ (isPrefixOf_append_false key pre s h1 h2)

/-- `findKey` returns the value of the first line that starts with the key. -/
lemma findKey_here (key v : Str) (ls : List Str) :
    findKey key ((key ++ v) :: ls) = some v := by
  simp [findKey, isPrefixOf_append_self, List.drop_left]

/-- `split` never returns an empty list. -/
lemma pySplit_ne_nil (sep : Char) (s : Str) : pySplit sep s ≠ [] := by
  cases s with
  | nil => simp [pySplit]
  | cons c rest =>
      rw [pySplit]
      by_cases h : c = sep
      · simp [h]
      · simp only [if_neg h]
        cases pySplit sep rest <;> simp

/-- The first piece of a split is the longest separator-free front of the string. -/
lemma pySplit_headD (sep : Char) (s : Str) :
    (pySplit sep s).headD [] = s.takeWhile (fun c => c ≠ sep) := by
  induction s with
  | nil => rfl
  | cons c rest ih =>
      by_cases h : c = sep
      · subst h
        simp [pySplit, List.takeWhile_cons]
      · rw [pySplit]
        simp only [if_neg h]
        cases hps : pySplit sep rest with
        | nil => exact absurd hps (pySplit_ne_nil sep rest)
        | cons r rs =>
            have hr : r = rest.takeWhile (fun c => c ≠ sep) := by
              rw [← ih, hps]
              rfl
            simp [List.takeWhile_cons, h, hr]

/-- Taking until a dot over a dot-free front stops exactly at the front. -/
lemma takeWhile_stem (stem rest : Str) (h : '.' ∉ stem) :
    (stem ++ '.' :: rest).takeWhile (fun c => c ≠ '.') = stem := by
  induction stem with
  | nil => simp [List.takeWhile_cons]
  | cons c cs ih =>
      have hc : c ≠ '.' := fun hcd => h (hcd ▸ List.mem_cons_self c cs)
      have ihe := ih (fun hm => h (List.mem_cons_of_mem c hm))
      rw [List.cons_append, List.takeWhile_cons, if_pos (by simp [hc]), ihe]

/-- The separator does not occur in the first piece of a split. -/
lemma count_takeWhile_ne (sep : Char) (s : Str) :
    (s.takeWhile (fun c => c ≠ sep)).count sep = 0 := by
  rw [List.count_eq_zero]
  intro hmem
  have := List.mem_takeWhile_imp hmem
  simp at this

/-- Splitting a separator-free line off the front. -/
lemma pySplit_append_cons (sep : Char) (l rest : Str) (h : sep ∉ l) :
    pySplit sep (l ++ sep :: rest) = l :: pySplit sep rest := by
  induction l with
  | nil => simp [pySplit]
  | cons c cs ih =>
      have hc : c ≠ sep := fun hcs => h (hcs ▸ List.mem_cons_self c cs)
      have ihe := ih (fun hm => h (List.mem_cons_of_mem c hm))
      rw [List.cons_append, pySplit, if_neg hc, ihe]

/-- Splitting joined newline-free lines recovers them (plus the empty piece after
the trailing newline). -/
lemma pySplit_unlines (ls : List Str) (h : ∀ l ∈ ls, '\n' ∉ l) :
    pySplit '\n' (unlines ls) = ls ++ [[]] := by
  induction ls with
  | nil => simp [unlines, pySplit]
  | cons l ls ih =>
      have hu : unlines (l :: ls) = l ++ '\n' :: unlines ls := rfl
      rw [hu, pySplit_append_cons _ _ _ (h l (by simp)),
        ih (fun x hx => h x (by simp [hx]))]
      rfl

/-- A string without occurrences of the pattern is left unchanged, for any fuel. -/
lemma pyReplaceFuel_no_occurrence (old new : Str) (fuel : Nat) (s : Str)
    (h : occursIn old s = false) : pyReplaceFuel old new fuel s = s := by
  induction s generalizing fuel with
  | nil => cases fuel <;> rfl
  | cons c rest ih =>
      rw [occursIn, Bool.or_eq_false_iff] at h
      cases fuel with
      | zero => rfl
      | succ f => simp [pyReplaceFuel, h.1, ih f h.2]

/-- Python `replace` leaves a string without occurrences of the pattern unchanged. -/
lemma pyReplace_no_occurrence (s old new : Str) (h : occursIn old s = false) :
    pyReplace s old new = s := by
  have hne : old ≠ [] := by
    intro he
    subst he
    cases s <;> simp [occursIn, List.isPrefixOf] at h
  rw [pyReplace, if_neg hne]
  exact pyReplaceFuel_no_occurrence _ _ _ _ h

/-- Replacing a nonempty pattern that occurs exactly once, as a prefix. -/
lemma pyReplace_prefix_eq (old new suffx : Str) (hne : old ≠ [])
    (hocc : occursIn old suffx = false) :
    pyReplace (old ++ suffx) old new = new ++ suffx := by
  rw [pyReplace, if_neg hne]
  cases old with
  | nil => exact absurd rfl hne
  | cons o os =>
      have hlen : ((o :: os) ++ suffx).length = (os ++ suffx).length + 1 := by simp
      rw [hlen]
      have hpre := isPrefixOf_append_self (o :: os) suffx
      rw [List.cons_append] at hpre
      have hdrop : (os ++ suffx).drop ((o :: os).length - 1) = suffx := by
        simp [List.drop_left]
      show pyReplaceFuel (o :: os) new ((os ++ suffx).length + 1) (o :: (os ++ suffx)) = new ++ suffx
      rw [pyReplaceFuel, if_pos hpre, hdrop,
        pyReplaceFuel_no_occurrence _ _ _ _ hocc]

/-- A single-character pattern does not occur in a string not containing it. -/
lemma occursIn_single_eq_false (c : Char) (s : Str) (h : c ∉ s) :
    occursIn [c] s = false := by
  induction s with
  | nil => rfl
  | cons a rest ih =>
      have ha : a ≠ c := fun hac => h (hac ▸ List.mem_cons_self a rest)
      have hca : (c == a) = false := beq_eq_false_iff_ne.mpr (fun hca => ha hca.symm)
      simp [occursIn, List.isPrefixOf, hca, ih (fun hm => h (List.mem_cons_of_mem a hm))]

/-- One effect acts on a path as its write contribution over the prior state. -/
lemma applyEffect_eq_or (σ : Str → Option Str) (e : Effect) (n : Str) :
    applyEffect σ e n = (writeUpdate e n).or (σ n) := by
  cases e with
  | write p c =>
      by_cases hpn : p = n
      · simp [applyEffect, writeUpdate, hpn, Option.or]
      · simp [applyEffect, writeUpdate, hpn, Option.or]
  | log m => simp [applyEffect, writeUpdate, Option.or]
  | mkdirP p => simp [applyEffect, writeUpdate, Option.or]

/-- The state of a path after applying effects: the last write wins, and the prior
state shows through when nothing wrote the path. -/
lemma applyEffects_eq_lastWrite (es : List Effect) (σ : Str → Option Str) (n : Str) :
    applyEffects σ es n = (lastWrite n es).or (σ n) := by
  induction es generalizing σ with
  | nil => rfl
  | cons e es ih =>
      have h1 : applyEffects σ (e :: es) n = applyEffects (applyEffect σ e) es n := rfl
      rw [h1, ih, lastWrite, Option.or_assoc, applyEffect_eq_or]

/-- Re-applying the same effect list leaves the file state unchanged. -/
lemma applyEffects_self_idem (es : List Effect) (σ : Str → Option Str) :
    applyEffects (applyEffects σ es) es = applyEffects σ es := by
  funext n
  rw [applyEffects_eq_lastWrite, applyEffects_eq_lastWrite]
  cases lastWrite n es <;> simp [Option.or]

/-- Disjunction rule for `Option.or` and `isSome`. -/
lemma isSome_or (a b : Option Str) : (a.or b).isSome = (a.isSome || b.isSome) := by
  cases a <;> cases b <;> rfl

/-- A path among the written names has a last write. -/
lemma lastWrite_isSome_of_mem (es : List Effect) (n : Str) (h : n ∈ writeNames es) :
    (lastWrite n es).isSome = true := by
  induction es with
  | nil => simp [writeNames] at h
  | cons e es ih =>
      rw [lastWrite, isSome_or]
      cases e with
      | log m =>
          have hw : writeNames (Effect.log m :: es) = writeNames es := rfl
          rw [hw] at h
          simp [ih h]
      | mkdirP p =>
          have hw : writeNames (Effect.mkdirP p :: es) = writeNames es := rfl
          rw [hw] at h
          simp [ih h]
      | write p c =>
          have hw : writeNames (Effect.write p c :: es) = p :: writeNames es := rfl
          rw [hw] at h
          rcases List.mem_cons.mp h with rfl | hm
          · simp [writeUpdate]
          · simp [ih hm]

/-- On written paths the final state is exactly the last write. -/
lemma applyEffects_eq_lastWrite_of_mem (es : List Effect) (σ : Str → Option Str) (n : Str)
    (h : n ∈ writeNames es) : applyEffects σ es n = lastWrite n es := by
  rw [applyEffects_eq_lastWrite]
  cases hlw : lastWrite n es with
  | some c => rfl
  | none =>
      have := lastWrite_isSome_of_mem es n h
      rw [hlw] at this
      exact absurd this (by simp)

/-- A flat map over elements that all produce nothing produces nothing. -/
lemma flatMap_eq_nil_all {α β : Type} (l : List α) (f : α → List β)
    (h : ∀ x ∈ l, f x = []) : l.flatMap f = [] := by
  induction l with
  | nil => rfl
  | cons a as ih =>
      simp only [List.flatMap_cons, h a (by simp), List.nil_append]
      exact ih fun x hx => h x (by simp [hx])

/-- Every effect produced for an entry of a walked `src` directory occurs in the run. -/
lemma mem_runGenerator_of_processFile (cfg : Config) (t : FsTree) (e : WalkEntry)
    (s : FsTree) (f : Str) (x : Effect)
    (he : e ∈ walk cfg.localRoot t) (hs : s ∈ e.subdirs) (hname : s.name = ("src".data))
    (hf : f ∈ listdir s) (hx : x ∈ processFile cfg e.path s.name f) :
    x ∈ runGenerator cfg t := by
  rw [runGenerator, List.mem_flatMap]
  refine ⟨e, he, ?_⟩
  rw [processEntry, List.mem_flatMap]
  refine ⟨s, hs, ?_⟩
  rw [if_pos hname, List.mem_flatMap]
  exact ⟨f, hf, hx⟩

/-- The `.lstrip()` in `create_deployment_yaml` is a no-op: the template starts
with a hash character. -/
lemma yamlBody_eq_unlines (cfg : Config) (pn dn ep wp si tz sa : Str) :
    yamlBody cfg pn dn ep wp si tz sa = unlines (yamlLines cfg pn dn ep wp si tz sa) := rfl

/-- No template line contains a newline when the interpolated values are newline-free. -/
lemma yamlLines_no_newline (cfg : Config) (pn dn ep wp si tz sa : Str)
    (hv : '\n' ∉ cfg.prefectVersion) (hsr : '\n' ∉ cfg.srcRoot)
    (hpn : '\n' ∉ pn) (hdn : '\n' ∉ dn) (hep : '\n' ∉ ep) (hwp : '\n' ∉ wp)
    (hsi : '\n' ∉ si) (htz : '\n' ∉ tz) (hsa : '\n' ∉ sa) :
    ∀ l ∈ yamlLines cfg pn dn ep wp si tz sa, '\n' ∉ l := by
  intro l hl
  simp only [yamlLines, List.mem_cons, List.not_mem_nil, or_false] at hl
  rcases hl with rfl|rfl|rfl|rfl|rfl|rfl|rfl|rfl|rfl|rfl|rfl|rfl|rfl|rfl|rfl|rfl|rfl|rfl|rfl|rfl|rfl|rfl|rfl|rfl|rfl|rfl|rfl|rfl|rfl|rfl|rfl|rfl|rfl|rfl|rfl|rfl|rfl|rfl|rfl|rfl
  all_goals first
    | decide
    | (intro hmem
       rcases List.mem_append.mp hmem with hx | hx
       · exact absurd hx (by decide)
       · first
          | exact hv hx
          | exact hsr hx
          | exact hpn hx
          | exact hdn hx
          | exact hep hx
          | exact hwp hx
          | exact hsi hx
          | exact htz hx
          | exact hsa hx)

/-- Splitting the rendered body into lines gives the template lines. -/
lemma pySplit_yamlBody (cfg : Config) (pn dn ep wp si tz sa : Str)
    (hv : '\n' ∉ cfg.prefectVersion) (hsr : '\n' ∉ cfg.srcRoot)
    (hpn : '\n' ∉ pn) (hdn : '\n' ∉ dn) (hep : '\n' ∉ ep) (hwp : '\n' ∉ wp)
    (hsi : '\n' ∉ si) (htz : '\n' ∉ tz) (hsa : '\n' ∉ sa) :
    pySplit '\n' (yamlBody cfg pn dn ep wp si tz sa) =
      yamlLines cfg pn dn ep wp si tz sa ++ [[]] := by
  rw [yamlBody_eq_unlines]
  exact pySplit_unlines _
    (yamlLines_no_newline cfg pn dn ep wp si tz sa hv hsr hpn hdn hep hwp hsi htz hsa)

/-- The rendered body echoes `project_name` in its top-level `name:` line. -/
lemma extract_name_field (cfg : Config) (pn dn ep wp si tz sa : Str)
    (hv : '\n' ∉ cfg.prefectVersion) (hsr : '\n' ∉ cfg.srcRoot)
    (hpn : '\n' ∉ pn) (hdn : '\n' ∉ dn) (hep : '\n' ∉ ep) (hwp : '\n' ∉ wp)
    (hsi : '\n' ∉ si) (htz : '\n' ∉ tz) (hsa : '\n' ∉ sa) :
    extractField ("name: ".data) (yamlBody cfg pn dn ep wp si tz sa) = some pn := by
  rw [extractField, pySplit_yamlBody cfg pn dn ep wp si tz sa hv hsr hpn hdn hep hwp hsi htz hsa]
  simp [yamlLines, findKey, List.isPrefixOf, List.drop]

/-- The rendered body echoes `entrypoint` in its `entrypoint:` line. -/
lemma extract_entrypoint_field (cfg : Config) (pn dn ep wp si tz sa : Str)
    (hv : '\n' ∉ cfg.prefectVersion) (hsr : '\n' ∉ cfg.srcRoot)
    (hpn : '\n' ∉ pn) (hdn : '\n' ∉ dn) (hep : '\n' ∉ ep) (hwp : '\n' ∉ wp)
    (hsi : '\n' ∉ si) (htz : '\n' ∉ tz) (hsa : '\n' ∉ sa) :
    extractField ("  entrypoint: ".data) (yamlBody cfg pn dn ep wp si tz sa) = some ep := by
  rw [extractField, pySplit_yamlBody cfg pn dn ep wp si tz sa hv hsr hpn hdn hep hwp hsi htz hsa]
  simp [yamlLines, findKey, List.isPrefixOf, List.drop]

/-- The rendered body echoes `schedule_interval` in its `interval:` line. -/
lemma extract_interval_field (cfg : Config) (pn dn ep wp si tz sa : Str)
    (hv : '\n' ∉ cfg.prefectVersion) (hsr : '\n' ∉ cfg.srcRoot)
    (hpn : '\n' ∉ pn) (hdn : '\n' ∉ dn) (hep : '\n' ∉ ep) (hwp : '\n' ∉ wp)
    (hsi : '\n' ∉ si) (htz : '\n' ∉ tz) (hsa : '\n' ∉ sa) :
    extractField ("- interval: ".data) (yamlBody cfg pn dn ep wp si tz sa) = some si := by
  rw [extractField, pySplit_yamlBody cfg pn dn ep wp si tz sa hv hsr hpn hdn hep hwp hsi htz hsa]
  simp [yamlLines, findKey, List.isPrefixOf, List.drop]

/-- The rendered body echoes `schedule_timezone` in its `timezone:` line. -/
lemma extract_timezone_field (cfg : Config) (pn dn ep wp si tz sa : Str)
    (hv : '\n' ∉ cfg.prefectVersion) (hsr : '\n' ∉ cfg.srcRoot)
    (hpn : '\n' ∉ pn) (hdn : '\n' ∉ dn) (hep : '\n' ∉ ep) (hwp : '\n' ∉ wp)
    (hsi : '\n' ∉ si) (htz : '\n' ∉ tz) (hsa : '\n' ∉ sa) :
    extractField ("  timezone: ".data) (yamlBody cfg pn dn ep wp si tz sa) = some tz := by
  rw [extractField, pySplit_yamlBody cfg pn dn ep wp si tz sa hv hsr hpn hdn hep hwp hsi htz hsa]
  simp [yamlLines, findKey, List.isPrefixOf, List.drop]

/-- The rendered body echoes `schedule_active` in its `active:` line. -/
lemma extract_active_field (cfg : Config) (pn dn ep wp si tz sa : Str)
    (hv : '\n' ∉ cfg.prefectVersion) (hsr : '\n' ∉ cfg.srcRoot)
    (hpn : '\n' ∉ pn) (hdn : '\n' ∉ dn) (hep : '\n' ∉ ep) (hwp : '\n' ∉ wp)
    (hsi : '\n' ∉ si) (htz : '\n' ∉ tz) (hsa : '\n' ∉ sa) :
    extractField ("  active: ".data) (yamlBody cfg pn dn ep wp si tz sa) = some sa := by
  rw [extractField, pySplit_yamlBody cfg pn dn ep wp si tz sa hv hsr hpn hdn hep hwp hsi htz hsa]
  simp [yamlLines, findKey, List.isPrefixOf, List.drop]

/-- A string ends with its appended suffix. -/
lemma pyEndsWith_append (s l : Str) : pyEndsWith (s ++ l) l = true := by
  rw [pyEndsWith]
  simp [List.isSuffixOf_iff_suffix]

/-- The deployment name of a file `stem.py` with a dot-free stem is the stem. -/
lemma deployment_of_stem (stem : Str) (hdot : '.' ∉ stem) :
    (pySplit '.' (stem ++ (".py".data))).headD [] = stem := by
  rw [pySplit_headD]
  have h : stem ++ (".py".data) = stem ++ '.' :: ("py".data) := rfl
  rw [h, takeWhile_stem _ _ hdot]

/-- A name with at least two dots differs from its first piece with ".py" appended. -/
lemma stem_py_ne (f : Str) (h2 : 2 ≤ f.count '.') :
    (f.takeWhile (fun c => c ≠ '.')) ++ (".py".data) ≠ f := by
  intro he
  have hc : ((f.takeWhile (fun c => c ≠ '.')) ++ (".py".data)).count '.' = f.count '.' := by
    rw [he]
  rw [List.count_append, count_takeWhile_ne] at hc
  have hpy : (".py".data).count '.' = 1 := by decide
  rw [hpy] at hc
  omega

/-- The write effect `processFile` produces for a matched ".py" entry. -/
lemma processFile_write_mem (cfg : Config) (rootPath dname f : Str)
    (hpy : pyEndsWith f (".py".data) = true) :
    Effect.write
        (cfg.outputFolder ++ ('/' :: ((pySplit '.' f).headD [])) ++ ("-deploy.yaml".data))
        (yamlBody cfg (pyBasename rootPath) ((pySplit '.' f).headD [])
          (entryPointFor cfg rootPath dname ((pySplit '.' f).headD []))
          ("default-worker-pool".data) ("3600.0".data) ("UTC".data) ("true".data))
      ∈ processFile cfg rootPath dname f := by
  rw [processFile, if_pos hpy]
  simp [createDeploymentYaml]

/-- C4 (confirmed): idempotence.  The generator is a pure function of the scanned
tree and the configuration constants, so a second run over an unchanged tree
produces exactly the same effect list — the same file names with the same
contents — and because `open(..., "w")` overwrites whole files, re-applying that
list to the state left by the first run changes nothing: the outputs stay
byte-identical. -/
theorem c4_idempotent_rerun (cfg : Config) (t : FsTree) (σ : Str → Option Str) :
    applyEffects (applyEffects σ (runGenerator cfg t)) (runGenerator cfg t)
      = applyEffects σ (runGenerator cfg t) :=
  applyEffects_self_idem (runGenerator cfg t) σ

/-- C9 (confirmed): noninterference of `project_dir`.  Two calls to
`create_deployment_yaml` that differ only in the `project_dir` argument produce
identical effects — the same output file name and byte-identical contents — since
the parameter is never used in the body. -/
theorem c9_projectDir_noninterference (cfg : Config) (pn pd₁ pd₂ dn ep wp si tz sa : Str) :
    createDeploymentYaml cfg pn pd₁ dn ep wp si tz sa
      = createDeploymentYaml cfg pn pd₂ dn ep wp si tz sa := rfl

/-- C8 (confirmed): when the image load (`Image.open` and `ImageOps.equalize`)
raises, `file_to_svg` catches the exception, logs the failure, and returns
normally to the caller: its effects are exactly the two prints, and no output
file is written. -/
theorem c8_load_failure_graceful (filename e : Str) (traceFn : TracedImage → List TraceCurve) :
    file_to_svg (Except.error e) traceFn filename
      = [Effect.log (("Loading image ".data) ++ filename ++ ("...".data)),
         Effect.log (("Failed to load image ".data) ++ filename ++ (": ".data) ++ e)]
    ∧ writeNames (file_to_svg (Except.error e) traceFn filename) = [] :=
  ⟨rfl, rfl⟩

/-- C7 (confirmed): directory matching is purely name-based.  Every directory named
exactly "src" anywhere under the scanned root — including one nested inside
another "src" — has each immediate entry ending in ".py" treated as a source
unit, and each such unit produces an output file `<deployment_name>-deploy.yaml`
in the output folder, where the deployment name is the entry name up to the
first dot. -/
theorem c7_name_based_matching (cfg : Config) (t : FsTree) (e : WalkEntry) (s : FsTree) (f : Str)
    (he : e ∈ walk cfg.localRoot t) (hs : s ∈ e.subdirs) (hname : s.name = ("src".data))
    (hf : f ∈ listdir s) (hpy : pyEndsWith f (".py".data) = true) :
    (cfg.outputFolder ++ ('/' :: ((pySplit '.' f).headD [])) ++ ("-deploy.yaml".data))
      ∈ writeNames (runGenerator cfg t) := by
  have hw := processFile_write_mem cfg e.path s.name f hpy
  have hmem := mem_runGenerator_of_processFile cfg t e s f _ he hs hname hf hw
  rw [writeNames, List.mem_filterMap]
  exact ⟨_, hmem, rfl⟩

/-- Witness for C7 at a concrete tree with a `src` nested inside another `src`:
the nested unit `R/src/src/inner.py` produces `out/inner-deploy.yaml`. -/
theorem c7_name_based_matching_witness :
    (("out".data) ++ ('/' :: ((pySplit '.' ("inner.py".data)).headD [])) ++ ("-deploy.yaml".data))
      ∈ writeNames (runGenerator exCfg exTreeNested) := by
  refine c7_name_based_matching exCfg exTreeNested
    ⟨("R/src".data), [.dir ("src".data) [] [("inner.py".data)]], [("outer.py".data)]⟩
    (.dir ("src".data) [] [("inner.py".data)]) ("inner.py".data) ?_ ?_ ?_ ?_ ?_
  · simp [exCfg, exTreeNested, walk, walkList, FsTree.name]
  · simp
  · rfl
  · decide
  · decide

/-- C6 (confirmed): when two discovered source units produce the same deployment
name, the later-processed one silently overwrites the earlier output — the run's
semantics is total (an `open(..., "w")` write never raises), and after a run
every written path holds exactly the contents of its chronologically last write,
so each deployment name maps to exactly one file in the output directory. -/
theorem c6_collision_last_write_wins (cfg : Config) (t : FsTree) (σ : Str → Option Str) (n : Str)
    (h : n ∈ writeNames (runGenerator cfg t)) :
    applyEffects σ (runGenerator cfg t) n = lastWrite n (runGenerator cfg t) :=
  applyEffects_eq_lastWrite_of_mem _ σ n h

/-- Witness for C6 at a concrete collision: `R/projA/src/flow.py` and
`R/projB/src/flow.py` both write `out/flow-deploy.yaml`; the final contents are
those of the last write, the one rendered for `projB`, the later-processed unit. -/
theorem c6_collision_last_write_wins_witness :
    ("out/flow-deploy.yaml".data) ∈ writeNames (runGenerator exCfg exTreeCollide)
    ∧ applyEffects (fun _ => none) (runGenerator exCfg exTreeCollide) ("out/flow-deploy.yaml".data)
        = lastWrite ("out/flow-deploy.yaml".data) (runGenerator exCfg exTreeCollide)
    ∧ lastWrite ("out/flow-deploy.yaml".data) (runGenerator exCfg exTreeCollide)
        = some (yamlBody exCfg ("projB".data) ("flow".data)
            ("P/projB/src/flow.py:flow".data)
            ("default-worker-pool".data) ("3600.0".data) ("UTC".data) ("true".data)) :=
  ⟨by decide, c6_collision_last_write_wins exCfg exTreeCollide _ _ (by decide), rfl⟩

/-- C3 (corrected) counterexample: scanning a root with no directory literally
named `src` produces no effects at all — zero output files, but also no `mkdir`
of the output directory, contradicting the claim that the output directory is
still created (the `mkdir` lives inside `create_deployment_yaml`, which never
runs). -/
theorem c3_counterexample :
    runGenerator exCfg exTreeNoSrc = []
    ∧ Effect.mkdirP ("out".data) ∉ runGenerator exCfg exTreeNoSrc := by
  constructor
  · decide
  · decide

/-- C3 amended: if the scanned root contains no directory literally named "src", a
run produces zero output files and performs no effects at all — in particular the
output directory is NOT created, since directory creation happens only inside
`create_deployment_yaml`. -/
theorem c3_amended_no_src (cfg : Config) (t : FsTree)
    (h : ∀ e ∈ walk cfg.localRoot t, ∀ s ∈ e.subdirs, s.name ≠ ("src".data)) :
    runGenerator cfg t = [] := by
  rw [runGenerator]
  apply flatMap_eq_nil_all
  intro e he
  rw [processEntry]
  apply flatMap_eq_nil_all
  intro s hs
  rw [if_neg (h e he s hs)]

/-- Witness for the amended C3 at the concrete `src`-free tree. -/
theorem c3_amended_no_src_witness :
    runGenerator exCfg exTreeNoSrc = [] :=
  c3_amended_no_src exCfg exTreeNoSrc (by decide)

/-- C5 (confirmed): the schedule fields of the generated output exactly echo the
configured `schedule_interval`, `schedule_timezone`, and `schedule_active`
arguments with no transformation: the call writes one file whose `interval:`,
`timezone:` and `active:` lines give the three values back verbatim (stated for
newline-free interpolated values; the discovery loop passes 3600.0, "UTC",
"true"). -/
theorem c5_schedule_echo (cfg : Config) (pn pd dn ep wp si tz sa : Str)
    (hv : '\n' ∉ cfg.prefectVersion) (hsr : '\n' ∉ cfg.srcRoot)
    (hpn : '\n' ∉ pn) (hdn : '\n' ∉ dn) (hep : '\n' ∉ ep) (hwp : '\n' ∉ wp)
    (hsi : '\n' ∉ si) (htz : '\n' ∉ tz) (hsa : '\n' ∉ sa) :
    createDeploymentYaml cfg pn pd dn ep wp si tz sa
      = [Effect.mkdirP cfg.outputFolder,
         Effect.write (cfg.outputFolder ++ ('/' :: dn) ++ ("-deploy.yaml".data))
           (yamlBody cfg pn dn ep wp si tz sa)]
    ∧ extractField ("- interval: ".data) (yamlBody cfg pn dn ep wp si tz sa) = some si
    ∧ extractField ("  timezone: ".data) (yamlBody cfg pn dn ep wp si tz sa) = some tz
    ∧ extractField ("  active: ".data) (yamlBody cfg pn dn ep wp si tz sa) = some sa :=
  ⟨rfl,
   extract_interval_field cfg pn dn ep wp si tz sa hv hsr hpn hdn hep hwp hsi htz hsa,
   extract_timezone_field cfg pn dn ep wp si tz sa hv hsr hpn hdn hep hwp hsi htz hsa,
   extract_active_field cfg pn dn ep wp si tz sa hv hsr hpn hdn hep hwp hsi htz hsa⟩

/-- Witness for C5 with the discovery loop's schedule values 3600.0, "UTC", "true". -/
theorem c5_schedule_echo_witness :
    createDeploymentYaml exCfg ("proj".data) ("P/a/src".data) ("flow".data)
        ("P/a/src/flow.py:flow".data) ("default-worker-pool".data)
        ("3600.0".data) ("UTC".data) ("true".data)
      = [Effect.mkdirP ("out".data),
         Effect.write (("out".data) ++ ('/' :: ("flow".data)) ++ ("-deploy.yaml".data))
           (yamlBody exCfg ("proj".data) ("flow".data) ("P/a/src/flow.py:flow".data)
             ("default-worker-pool".data) ("3600.0".data) ("UTC".data) ("true".data))]
    ∧ extractField ("- interval: ".data)
        (yamlBody exCfg ("proj".data) ("flow".data) ("P/a/src/flow.py:flow".data)
          ("default-worker-pool".data) ("3600.0".data) ("UTC".data) ("true".data))
        = some ("3600.0".data)
    ∧ extractField ("  timezone: ".data)
        (yamlBody exCfg ("proj".data) ("flow".data) ("P/a/src/flow.py:flow".data)
          ("default-worker-pool".data) ("3600.0".data) ("UTC".data) ("true".data))
        = some ("UTC".data)
    ∧ extractField ("  active: ".data)
        (yamlBody exCfg ("proj".data) ("flow".data) ("P/a/src/flow.py:flow".data)
          ("default-worker-pool".data) ("3600.0".data) ("UTC".data) ("true".data))
        = some ("true".data) :=
  c5_schedule_echo exCfg ("proj".data) ("P/a/src".data) ("flow".data)
    ("P/a/src/flow.py:flow".data) ("default-worker-pool".data)
    ("3600.0".data) ("UTC".data) ("true".data)
    (by decide) (by decide) (by decide) (by decide) (by decide) (by decide)
    (by decide) (by decide) (by decide)

/-- C2 (corrected) counterexample: for the single source unit at
`R/projA/projB/src/flow.py` the directory two levels above the matched `src` is
`projA`, yet the top-level `name:` field of the written configuration reads
`projB` — the name of the directory ONE level above `src`. -/
theorem c2_counterexample :
    lastWrite ("out/flow-deploy.yaml".data) (runGenerator exCfg exTreeDeep)
      = some (yamlBody exCfg ("projB".data) ("flow".data)
          ("P/projA/projB/src/flow.py:flow".data)
          ("default-worker-pool".data) ("3600.0".data) ("UTC".data) ("true".data))
    ∧ extractField ("name: ".data)
        (yamlBody exCfg ("projB".data) ("flow".data)
          ("P/projA/projB/src/flow.py:flow".data)
          ("default-worker-pool".data) ("3600.0".data) ("UTC".data) ("true".data))
      = some ("projB".data)
    ∧ ("projB".data) ≠ ("projA".data) := by
  refine ⟨rfl, ?_, by decide⟩
  exact extract_name_field exCfg ("projB".data) ("flow".data)
    ("P/projA/projB/src/flow.py:flow".data) ("default-worker-pool".data)
    ("3600.0".data) ("UTC".data) ("true".data)
    (by decide) (by decide) (by decide) (by decide) (by decide) (by decide)
    (by decide) (by decide) (by decide)

/-- C2 amended: the project name written into the output configuration's top-level
`name:` field equals the base name of the directory ONE level above the matched
`src` directory — its immediate parent, `os.path.basename(root)` — not two levels
above. -/
theorem c2_amended_project_name (cfg : Config) (t : FsTree) (e : WalkEntry) (s : FsTree) (f : Str)
    (he : e ∈ walk cfg.localRoot t) (hs : s ∈ e.subdirs) (hname : s.name = ("src".data))
    (hf : f ∈ listdir s) (hpy : pyEndsWith f (".py".data) = true)
    (hv : '\n' ∉ cfg.prefectVersion) (hsr : '\n' ∉ cfg.srcRoot)
    (hpn : '\n' ∉ pyBasename e.path) (hdn : '\n' ∉ (pySplit '.' f).headD [])
    (hep : '\n' ∉ entryPointFor cfg e.path s.name ((pySplit '.' f).headD [])) :
    Effect.write
        (cfg.outputFolder ++ ('/' :: ((pySplit '.' f).headD [])) ++ ("-deploy.yaml".data))
        (yamlBody cfg (pyBasename e.path) ((pySplit '.' f).headD [])
          (entryPointFor cfg e.path s.name ((pySplit '.' f).headD []))
          ("default-worker-pool".data) ("3600.0".data) ("UTC".data) ("true".data))
      ∈ runGenerator cfg t
    ∧ extractField ("name: ".data)
        (yamlBody cfg (pyBasename e.path) ((pySplit '.' f).headD [])
          (entryPointFor cfg e.path s.name ((pySplit '.' f).headD []))
          ("default-worker-pool".data) ("3600.0".data) ("UTC".data) ("true".data))
      = some (pyBasename e.path) :=
  ⟨mem_runGenerator_of_processFile cfg t e s f _ he hs hname hf
      (processFile_write_mem cfg e.path s.name f hpy),
   extract_name_field cfg (pyBasename e.path) ((pySplit '.' f).headD [])
      (entryPointFor cfg e.path s.name ((pySplit '.' f).headD []))
      ("default-worker-pool".data) ("3600.0".data) ("UTC".data) ("true".data)
      hv hsr hpn hdn hep (by decide) (by decide) (by decide) (by decide)⟩

/-- Witness for the amended C2 at `R/projA/projB/src/flow.py`: the `name:` field is
`projB`, the base name of the directory immediately above `src`. -/
theorem c2_amended_project_name_witness :
    Effect.write (("out".data) ++ ('/' :: ("flow".data)) ++ ("-deploy.yaml".data))
        (yamlBody exCfg ("projB".data) ("flow".data)
          ("P/projA/projB/src/flow.py:flow".data)
          ("default-worker-pool".data) ("3600.0".data) ("UTC".data) ("true".data))
      ∈ runGenerator exCfg exTreeDeep
    ∧ extractField ("name: ".data)
        (yamlBody exCfg ("projB".data) ("flow".data)
          ("P/projA/projB/src/flow.py:flow".data)
          ("default-worker-pool".data) ("3600.0".data) ("UTC".data) ("true".data))
      = some ("projB".data) :=
  c2_amended_project_name exCfg exTreeDeep
    ⟨("R/projA/projB".data), [.dir ("src".data) [] [("flow.py".data)]], []⟩
    (.dir ("src".data) [] [("flow.py".data)]) ("flow.py".data)
    (by simp [exCfg, exTreeDeep, walk, walkList, FsTree.name]) (by simp) rfl
    (by decide) (by decide) (by decide) (by decide) (by decide) (by decide) (by decide)

/-- C10 (confirmed): for a discovered file, the deployment name is the portion of
the file name before the FIRST dot (`file.split(".")[0]`), not the name with only
the final extension stripped; the output file is `<first-piece>-deploy.yaml` and
the entry point is built from `<first-piece>.py`, which for names with more than
one dot differs from the discovered file. -/
theorem c10_first_dot (cfg : Config) (t : FsTree) (e : WalkEntry) (s : FsTree) (f : Str)
    (he : e ∈ walk cfg.localRoot t) (hs : s ∈ e.subdirs) (hname : s.name = ("src".data))
    (hf : f ∈ listdir s) (hpy : pyEndsWith f (".py".data) = true)
    (hdots : 2 ≤ f.count '.') :
    (pySplit '.' f).headD [] = f.takeWhile (fun c => c ≠ '.')
    ∧ Effect.write
        (cfg.outputFolder ++ ('/' :: ((pySplit '.' f).headD [])) ++ ("-deploy.yaml".data))
        (yamlBody cfg (pyBasename e.path) ((pySplit '.' f).headD [])
          (entryPointFor cfg e.path s.name ((pySplit '.' f).headD []))
          ("default-worker-pool".data) ("3600.0".data) ("UTC".data) ("true".data))
      ∈ runGenerator cfg t
    ∧ ((pySplit '.' f).headD []) ++ (".py".data) ≠ f := by
  refine ⟨pySplit_headD '.' f,
    mem_runGenerator_of_processFile cfg t e s f _ he hs hname hf
      (processFile_write_mem cfg e.path s.name f hpy), ?_⟩
  rw [pySplit_headD]
  exact stem_py_ne f hdots

/-- Witness for C10 at `R/x/src/a.b.py`: deployment name `a`, output file
`out/a-deploy.yaml`, entry point `P/x/src/a.py:a` referencing `a.py` rather than
the discovered `a.b.py`. -/
theorem c10_first_dot_witness :
    ("a".data) = ("a.b.py".data).takeWhile (fun c => c ≠ '.')
    ∧ Effect.write (("out".data) ++ ('/' :: ("a".data)) ++ ("-deploy.yaml".data))
        (yamlBody exCfg ("x".data) ("a".data) ("P/x/src/a.py:a".data)
          ("default-worker-pool".data) ("3600.0".data) ("UTC".data) ("true".data))
      ∈ runGenerator exCfg exTreeDots
    ∧ ("a".data) ++ (".py".data) ≠ ("a.b.py".data) :=
  c10_first_dot exCfg exTreeDots
    ⟨("R/x".data), [.dir ("src".data) [] [("a.b.py".data)]], []⟩
    (.dir ("src".data) [] [("a.b.py".data)]) ("a.b.py".data)
    (by simp [exCfg, exTreeDots, walk, walkList, FsTree.name]) (by simp) rfl
    (by decide) (by decide) (by decide)

/-- C1 (corrected) counterexample: for the discovered file `a.b.py` at
`R/x/src/a.b.py` the entry point written into the configuration is
`P/x/src/a.py:a`, built from the deployment name `a`, whereas the claim's rule —
the file's path with the local root substituted, followed by `:` and the
deployment name — demands `P/x/src/a.b.py:a`.  The two differ. -/
theorem c1_counterexample :
    lastWrite ("out/a-deploy.yaml".data) (runGenerator exCfg exTreeDots)
      = some (yamlBody exCfg ("x".data) ("a".data) ("P/x/src/a.py:a".data)
          ("default-worker-pool".data) ("3600.0".data) ("UTC".data) ("true".data))
    ∧ extractField ("  entrypoint: ".data)
        (yamlBody exCfg ("x".data) ("a".data) ("P/x/src/a.py:a".data)
          ("default-worker-pool".data) ("3600.0".data) ("UTC".data) ("true".data))
      = some ("P/x/src/a.py:a".data)
    ∧ ("P/x/src/a.py:a".data)
        ≠ pyReplace ("R/x/src/a.b.py".data) ("R".data) ("P".data) ++ (':' :: ("a".data)) := by
  refine ⟨rfl, ?_, by decide⟩
  exact extract_entrypoint_field exCfg ("x".data) ("a".data) ("P/x/src/a.py:a".data)
    ("default-worker-pool".data) ("3600.0".data) ("UTC".data) ("true".data)
    (by decide) (by decide) (by decide) (by decide) (by decide) (by decide)
    (by decide) (by decide) (by decide)

/-- C1 amended: restricted to discovered source files with exactly one dot — name
`stem ++ ".py"` with dot-free `stem` — and to paths on which the two `replace`
calls act as pure prefix substitution (no backslashes, and the local root does
not reoccur after the leading prefix), the entry point passed to the
configuration is the file's path with the local scan root replaced by the remote
root, followed by `:` and the deployment name, and the corresponding file write
occurs in the run.  For names with further dots the entry point is instead built
from the portion of the name before the first dot; see the counterexample. -/
theorem c1_amended_entrypoint (cfg : Config) (t : FsTree) (e : WalkEntry) (s : FsTree)
    (stem rest : Str)
    (he : e ∈ walk cfg.localRoot t) (hs : s ∈ e.subdirs) (hname : s.name = ("src".data))
    (hf : (stem ++ (".py".data)) ∈ listdir s)
    (hdot : '.' ∉ stem)
    (hpath : e.path = cfg.localRoot ++ rest)
    (hlr : cfg.localRoot ≠ [])
    (hbs : '\\' ∉ cfg.localRoot ++ (rest ++ ("/src/".data) ++ stem ++ (".py:".data) ++ stem))
    (hocc : occursIn cfg.localRoot (rest ++ ("/src/".data) ++ stem ++ (".py:".data) ++ stem) = false) :
    entryPointFor cfg e.path ("src".data) stem
        = cfg.srcRoot ++ (rest ++ ("/src/".data) ++ stem ++ (".py:".data) ++ stem)
    ∧ Effect.write
        (cfg.outputFolder ++ ('/' :: stem) ++ ("-deploy.yaml".data))
        (yamlBody cfg (pyBasename e.path) stem
          (cfg.srcRoot ++ (rest ++ ("/src/".data) ++ stem ++ (".py:".data) ++ stem))
          ("default-worker-pool".data) ("3600.0".data) ("UTC".data) ("true".data))
      ∈ runGenerator cfg t := by
  have hdep : (pySplit '.' (stem ++ (".py".data))).headD [] = stem := deployment_of_stem stem hdot
  have hfull : e.path ++ ('/' :: ("src".data)) ++ ('/' :: stem) ++ (".py:".data) ++ stem
      = cfg.localRoot ++ (rest ++ ("/src/".data) ++ stem ++ (".py:".data) ++ stem) := by
    rw [hpath]
    simp
  have h1 : entryPointFor cfg e.path ("src".data) stem
      = cfg.srcRoot ++ (rest ++ ("/src/".data) ++ stem ++ (".py:".data) ++ stem) := by
    rw [entryPointFor, hfull,
      pyReplace_no_occurrence _ _ _ (occursIn_single_eq_false '\\' _ hbs),
      pyReplace_prefix_eq cfg.localRoot cfg.srcRoot _ hlr hocc]
  refine ⟨h1, ?_⟩
  have hw := processFile_write_mem cfg e.path ("src".data) (stem ++ (".py".data))
    (pyEndsWith_append stem (".py".data))
  rw [hdep, h1] at hw
  rw [← hname] at hw
  exact mem_runGenerator_of_processFile cfg t e s _ _ he hs hname hf hw

/-- Witness for the amended C1 at `R/a/src/b.py`, matching the claim's own example:
local root `R`, remote root `P`, entry point `P/a/src/b.py:b`. -/
theorem c1_amended_entrypoint_witness :
    entryPointFor exCfg ("R/a".data) ("src".data) ("b".data) = ("P/a/src/b.py:b".data)
    ∧ Effect.write (("out".data) ++ ('/' :: ("b".data)) ++ ("-deploy.yaml".data))
        (yamlBody exCfg ("a".data) ("b".data) ("P/a/src/b.py:b".data)
          ("default-worker-pool".data) ("3600.0".data) ("UTC".data) ("true".data))
      ∈ runGenerator exCfg exTreeSimple :=
  c1_amended_entrypoint exCfg exTreeSimple
    ⟨("R/a".data), [.dir ("src".data) [] [("b.py".data)]], []⟩
    (.dir ("src".data) [] [("b.py".data)]) ("b".data) ("/a".data)
    (by simp [exCfg, exTreeSimple, walk, walkList, FsTree.name]) (by simp) rfl
    (by decide) (by decide) (by decide) (by decide) (by decide) (by decide)

